import Mathlib

/-
Verification development for the StarBotShop bot (src/main.py).

The file shallowly embeds the parts of the program that the specification's
claims are about: the JSON-backed user store (`UserDataManager`), the
conversation handlers of `TelegramBotApp`, and the admin settlement protocol
(callback-data tokens).  Python dicts keyed by `str(user_id)` are modelled as
insertion-ordered association lists keyed by the integer id (`str` is
injective on integers); Python strings are Lean `String`s; Python `int` is
`Int`; monetary values are exact rationals.  The transport layer (Telegram
API objects, keyboards, URLs) is outside the embedding; outbound messages are
recorded as an explicit event list.
-/

set_option linter.unusedVariables false

/-! ### Python primitives: str(n), int(s), s.split("_"), round(x, 2) -/

/-- Character for a decimal digit `d < 10` (code point 48 + d). -/
def digitChar (d : Nat) : Char := Char.ofNat (48 + d)

/-- Fuel-driven decimal printing of a natural number, most significant digit
first.  `natToCharsAux (n+1) n` is the digit string of `n`. -/
def natToCharsAux : Nat → Nat → List Char
  | 0, _ => []
  | fuel+1, n =>
    if n < 10 then [digitChar n]
    else natToCharsAux fuel (n / 10) ++ [digitChar (n % 10)]

/-- Models Python `str()` on a nonnegative integer (decimal notation). -/
def natToStr (n : Nat) : String := ⟨natToCharsAux (n + 1) n⟩

/-- Models Python `str()` on an integer, as used by the f-strings in
`_payment_confirm_handler` and `_handle_amount_input`. -/
def intToStr (i : Int) : String :=
  if i < 0 then "-" ++ natToStr i.natAbs else natToStr i.toNat

/-- Numeric value of a decimal digit character. -/
def digitVal (c : Char) : Nat := c.toNat - 48

/-- Parses a nonempty all-digit character list as a natural number. -/
def parseDigits (l : List Char) : Option Nat :=
  if l = [] then none
  else if l.all (fun c => c.isDigit) then
    some (l.foldl (fun a c => 10 * a + digitVal c) 0)
  else none

/-- Models Python `int(text)` on an already-stripped string: an optional sign
followed by decimal digits; anything else raises `ValueError`, modelled as
`none`.  (Pythons digit-grouping underscores are not modelled; no input in
this program uses them.) -/
def pyIntChars : List Char → Option Int
  | [] => none
  | c :: cs =>
    if c = '-' then (parseDigits cs).map (fun n => -(Int.ofNat n))
    else if c = '+' then (parseDigits cs).map (fun n => Int.ofNat n)
    else (parseDigits (c :: cs)).map (fun n => Int.ofNat n)

/-- Models Python `int(text)` (see `pyIntChars`). -/
def pyInt (s : String) : Option Int := pyIntChars s.data

/-- Models Python `str.split(sep)` for a one-character separator, on the
character list: `"a_b".split("_") == ["a","b"]`, `"".split("_") == [""]`. -/
def splitOnChar (sep : Char) : List Char → List (List Char)
  | [] => [[]]
  | c :: cs =>
    match splitOnChar sep cs with
    | [] => [[]]
    | h :: t => if c = sep then [] :: h :: t else (c :: h) :: t

/-- Models `query.data.split("_")` from `_admin_action_handler`. -/
def pySplit (s : String) : List String :=
  (splitOnChar '_' s.data).map (fun l => ⟨l⟩)

/-- Lower-cases one ASCII letter (identity elsewhere). -/
def pyLowerChar (c : Char) : Char :=
  if 'A' ≤ c ∧ c ≤ 'Z' then Char.ofNat (c.toNat + 32) else c

/-- Models Python `str.lower()` on the ASCII usernames this program
compares. -/
def pyLower (s : String) : String := ⟨s.data.map pyLowerChar⟩

/-- Rounds a rational to the nearest integer, ties to even (Python's
`round` rule). -/
def pyRoundInt (x : ℚ) : Int :=
  if x - (Int.floor x : ℚ) < 1/2 then Int.floor x
  else if 1/2 < x - (Int.floor x : ℚ) then Int.floor x + 1
  else if Int.floor x % 2 = 0 then Int.floor x else Int.floor x + 1

/-- Models Python `round(x, 2)` on an exact rational: scale by 100, round
half to even, scale back.  (The binary floating-point representation error of
the source is not modelled; the rounding rule itself is Python's.) -/
def pyRound2 (q : ℚ) : ℚ :=
  (pyRoundInt (q * 100) : ℚ) / 100

/-! ### Data model: the user store (`UserDataManager`) -/

/-- One value of the persisted JSON object: the per-user record created by
`UserDataManager.get_or_create_user`. -/
structure UserRecord where
  username : String
  referrals : Nat
  total_earned : ℚ
  balance_stars : Int
  referred_by : Option Int
deriving DecidableEq, Repr

/-- The persisted store: a Python dict keyed by `str(user_id)`, modelled as an
insertion-ordered association list keyed by the id itself. -/
abbrev Store := List (Int × UserRecord)

/-- Dict membership / access: `data[str(uid)]` when present. -/
def lookup : Store → Int → Option UserRecord
  | [], _ => none
  | (k, v) :: rest, uid => if k = uid then some v else lookup rest uid

/-- The in-memory mutation `data[user_key]["balance_stars"] += amount` of
`add_user_balance`: update the entry of the (unique) matching key.  (The
record always carries the field, so the `setdefault` is the identity.) -/
def bump_balance : Store → Int → Int → Store
  | [], _, _ => []
  | (k, v) :: rest, uid, amount =>
    if k = uid then (k, { v with balance_stars := v.balance_stars + amount }) :: rest
    else (k, v) :: bump_balance rest uid amount

/-- Models `UserDataManager.add_user_balance` as one sequential operation:
load, and only when the key is present, mutate the balance and save;
otherwise the call silently does nothing. -/
def add_user_balance (data : Store) (uid : Int) (amount : Int) : Store :=
  if (lookup data uid).isSome then bump_balance data uid amount else data

/-- Models `UserDataManager.get_or_create_user`: return the existing record,
or insert a fresh one (`referrals=0, total_earned=0.0, balance_stars=0`) at
the end of the dict and return it. -/
def get_or_create_user (data : Store) (uid : Int) (uname : String)
    (referred_by : Option Int) : Store × UserRecord :=
  match lookup data uid with
  | some u => (data, u)
  | none =>
    let u : UserRecord :=
      { username := uname, referrals := 0, total_earned := 0,
        balance_stars := 0, referred_by := referred_by }
    (data ++ [(uid, u)], u)

/-- Models `UserDataManager.find_user_by_username`: first entry (in dict
iteration order) whose `username` matches case-insensitively. -/
def find_user_by_username : Store → String → Option Int
  | [], _ => none
  | (k, v) :: rest, uname =>
    if pyLower v.username = pyLower uname then some k
    else find_user_by_username rest uname

/-- Models `UserDataManager.get_user_stats`: `(referrals, total_earned)`,
defaulting to `(0, 0.0)` for an unknown id. -/
def get_user_stats (data : Store) (uid : Int) : Nat × ℚ :=
  match lookup data uid with
  | some u => (u.referrals, u.total_earned)
  | none => (0, 0)

/-- Models `UserDataManager.generate_referral_link`. -/
def generate_referral_link (bot_username : String) (uid : Int) : String :=
  "https://t.me/" ++ bot_username ++ "?start=r" ++ intToStr uid

/-! ### Conversation state and outbound events -/

/-- The per-user `context.user_data` dict: only the keys this program uses.
Absent keys are `none` / `false`; `pop` clears them. -/
structure UserCtx where
  payment_amount : Option Int := none
  payment_price : Option ℚ := none
  payment_comment : Option String := none
  friend_username : Option String := none
  awaiting_amount : Bool := false
  awaiting_friend_username : Bool := false
deriving DecidableEq, Repr

/-- Outbound effects of one handler invocation, in emission order. -/
inductive OutMsg where
  /-- Models `update.message.reply_text` to the current user. -/
  | reply (text : String)
  /-- Models `context.bot.send_message(chat_id=..., text=...)`. -/
  | send (chat : Int) (text : String)
  /-- Models `query.edit_message_text` on the admin-facing message. -/
  | editMsg (text : String)
deriving DecidableEq, Repr

/-! ### Conversation handlers -/

/-- The hard-coded minimum of `max(2, round(amount * rate, 2))` in
`_handle_amount_input` (the minimum fee, in RUB). -/
def minimum_fee : ℚ := 2

/-- Models the price computation of `_handle_amount_input`:
`price_rub = max(2, round(amount * self._star_rate, 2))`. -/
def price_rub (rate : ℚ) (amount : Int) : ℚ :=
  max 2 (pyRound2 ((amount : ℚ) * rate))

/-- Models `TelegramBotApp._handle_amount_input`.  The handler never touches
the user store; it validates the amount, computes the price and memo, stores
them in `context.user_data` and clears the `awaiting_amount` flag.  The
payment keyboard and URL are transport-layer and are summarized by the single
reply. -/
def handle_amount_input (rate : ℚ) (data : Store) (ctx : UserCtx) (uid : Int)
    (text : String) : Store × UserCtx × List OutMsg :=
  match pyInt text with
  | none => (data, ctx, [OutMsg.reply ("Пожалуйста, введите корректное число.")])
  | some amount =>
    if amount < 50 ∨ 1000000 < amount then
      (data, ctx, [OutMsg.reply ("Сумма должна быть в диапазоне от 50 до 1,000,000.")])
    else
      let price := price_rub rate amount
      let comment := "Stars_" ++ intToStr amount ++ "_uid" ++ intToStr uid
      let ctx' := { ctx with
        payment_amount := some amount, payment_price := some price,
        payment_comment := some comment, awaiting_amount := false }
      (data, ctx', [OutMsg.reply ("⭐ Выберите способ оплаты (счёт действителен 30 мин.):")])

/-- Models `TelegramBotApp._handle_friend_username`: require a leading `@`,
else re-prompt; on match store `text[1:]` as the recipient handle, clear
`awaiting_friend_username`, set `awaiting_amount`.  The handle is not looked
up in the store here. -/
def handle_friend_username (data : Store) (ctx : UserCtx) (text : String) :
    Store × UserCtx × List OutMsg :=
  match text.data with
  | c :: rest =>
    if c = '@' then
      let ctx' := { ctx with
        friend_username := some ⟨rest⟩,
        awaiting_friend_username := false, awaiting_amount := true }
      (data, ctx',
        [OutMsg.reply ("✅ Получатель: " ++ text ++
          "\n\nТеперь введите сумму покупки (мин. 50).\n\n❗️**Важно:** Убедитесь, что вы правильно указали username. Если допустить ошибку, звёзды не будут зачислены.")])
    else (data, ctx, [OutMsg.reply ("Введите username, начиная с @. Пример: @username")])
  | [] => (data, ctx, [OutMsg.reply ("Введите username, начиная с @. Пример: @username")])

/-- Models the referral-code parse of `TelegramBotApp._start`:
`context.args[0].startswith('r')` and then `int(args[0][1:])`, with the
`ValueError` handler mapping a bad number to `None`. -/
def parse_ref_arg (a : String) : Option Int :=
  match a.data with
  | c :: rest => if c = 'r' then pyIntChars rest else none
  | [] => none

/-- Models `TelegramBotApp._start` up to the menu reply: derive `referred_by`
from the first start argument (if any) and call `get_or_create_user`. -/
def start_handler (data : Store) (uid : Int) (uname : String)
    (args : List String) : Store × UserRecord :=
  let referred_by : Option Int :=
    match args with
    | [] => none
    | a :: _ => parse_ref_arg a
  get_or_create_user data uid uname referred_by

/-! ### Settlement protocol: callback-data tokens -/

/-- Models `callback_data_confirm` of `_payment_confirm_handler` for a gift:
`f"admin_confirm_gift_{user.id}_{amount}_{friend_username}"`. -/
def giftCallbackData (uid : Int) (amount : Int) (friend : String) : String :=
  "admin_confirm_gift_" ++ intToStr uid ++ "_" ++ intToStr amount ++ "_" ++ friend

/-- Models `callback_data_confirm` of `_payment_confirm_handler` for a
self-topup: `f"admin_confirm_self_{user.id}_{amount}"`. -/
def selfCallbackData (uid : Int) (amount : Int) : String :=
  "admin_confirm_self_" ++ intToStr uid ++ "_" ++ intToStr amount

/-- Models `callback_data_decline`: `f"admin_decline_{user.id}"`. -/
def declineCallbackData (uid : Int) : String :=
  "admin_decline_" ++ intToStr uid

/-- The settlement operation `_admin_action_handler` extracts from a
callback-data token. -/
inductive Decoded where
  | confirmSelf (uid : Int) (amount : Int)
  | confirmGift (payer : Int) (amount : Int) (handle : String)
  | decline (uid : Int)
deriving DecidableEq, Repr

/-- Models the token parsing of `_admin_action_handler` (lines 253-270 and
300-301): `parts = query.data.split("_")`, branch on `parts[1]` and
`parts[2]`, read ids and amounts with `int(...)`.  `none` covers both the
silently-ignored unmatched branches and the `IndexError`/`ValueError` paths;
in every such case the handler performs no store mutation and sends no user
notification. -/
def decodeAdminCallback (cb : String) : Option Decoded :=
  let parts := pySplit cb
  match parts.get? 1 with
  | none => none
  | some action =>
    if action = "confirm" then
      match parts.get? 2 with
      | none => none
      | some op =>
        if op = "self" then
          match parts.get? 3, parts.get? 4 with
          | some s3, some s4 =>
            match pyInt s3, pyInt s4 with
            | some uid, some amount => some (Decoded.confirmSelf uid amount)
            | _, _ => none
          | _, _ => none
        else if op = "gift" then
          match parts.get? 3, parts.get? 4, parts.get? 5 with
          | some s3, some s4, some s5 =>
            match pyInt s3, pyInt s4 with
            | some payer, some amount => some (Decoded.confirmGift payer amount s5)
            | _, _ => none
          | _, _, _ => none
        else none
    else if action = "decline" then
      match parts.get? 2 with
      | none => none
      | some s2 => (pyInt s2).map Decoded.decline
    else none

/-- Models `TelegramBotApp._admin_action_handler`: decode the token and apply
the settlement — credit and notify for a self-topup; resolve the handle, then
credit/notify or report failure for a gift; notify for a decline.  `origMsg`
is `query.message.text`; `support` is the configured support handle. -/
def admin_action_handler (support : String) (data : Store) (cb : String)
    (origMsg : String) : Store × List OutMsg :=
  match decodeAdminCallback cb with
  | some (Decoded.confirmSelf uid amount) =>
    (add_user_balance data uid amount,
     [OutMsg.send uid ("✅ Ваш баланс успешно пополнен на " ++ intToStr amount ++ " ⭐️!"),
      OutMsg.editMsg (origMsg ++ "\n\n**[ ✅ ПЛАТЁЖ ПОДТВЕРЖДЁН ]**")])
  | some (Decoded.confirmGift payer amount handle) =>
    match find_user_by_username data handle with
    | some rid =>
      (add_user_balance data rid amount,
       [OutMsg.send rid ("🎁 Вам поступил подарок! Ваш баланс пополнен на " ++ intToStr amount ++ " ⭐️!"),
        OutMsg.send payer ("✅ Ваш подарок на " ++ intToStr amount ++ " ⭐️ для @" ++ handle ++ " успешно доставлен!"),
        OutMsg.editMsg (origMsg ++ "\n\n**[ ✅ ПОДАРОК ДОСТАВЛЕН ]**\n(Получатель: @" ++ handle ++ ")")])
    | none =>
      (data,
       [OutMsg.send payer ("❗️Ваш платёж подтверждён, но пользователь @" ++ handle ++
          " не найден. Звёзды не были зачислены. Свяжитесь с поддержкой @" ++ support ++ "."),
        OutMsg.editMsg (origMsg ++ "\n\n**[ ❌ ОШИБКА: ПОЛУЧАТЕЛЬ НЕ НАЙДЕН ]**\n(Пользователь: @" ++ handle ++ ")")])
  | some (Decoded.decline uid) =>
    (data,
     [OutMsg.send uid ("❗️ Ваш последний платёж был отклонён. Свяжитесь с поддержкой.\n @" ++ support),
      OutMsg.editMsg (origMsg ++ "\n\n**[ ❌ ПЛАТЁЖ ОТКЛОНЁН ]**")])
  | none => (data, [])

/-! ### Concurrency model of the load/save pattern

`UserDataManager` guards the physical file read (`load_data`) and the
physical file write (`save_data`) with `self._file_lock`, but
`add_user_balance` awaits between them, so the lock is *not* held across the
read-modify-write span.  Each balance-adding call is therefore two atomic
steps: an atomic load of the whole store into a local snapshot, and an atomic
write-back of the mutated snapshot (skipped when the key was absent in the
snapshot).  Any interleaving of these atomic steps across concurrently
scheduled calls is a possible asyncio execution. -/

/-- One in-flight `add_user_balance(uid, k)` call: `pc = 0` before its load,
`pc = 1` between load and save (holding the loaded snapshot), `pc = 2` done. -/
structure ThreadState where
  pc : Nat
  snap : Store
deriving DecidableEq, Repr

/-- The shared file plus the in-flight calls. -/
structure Config where
  file : Store
  threads : List ThreadState
deriving DecidableEq, Repr

/-- The two atomic steps of one `add_user_balance(uid, k)` call. -/
def threadStep (uid k : Int) (file : Store) (t : ThreadState) :
    Option (Store × ThreadState) :=
  match t.pc with
  | 0 => some (file, ⟨1, file⟩)
  | 1 =>
    if (lookup t.snap uid).isSome then some (bump_balance t.snap uid k, ⟨2, t.snap⟩)
    else some (file, ⟨2, t.snap⟩)
  | _ => none

/-- Schedule thread `i` for one atomic step. -/
def schedStep (uid k : Int) (c : Config) (i : Nat) : Option Config :=
  match c.threads.get? i with
  | none => none
  | some t =>
    match threadStep uid k c.file t with
    | none => none
    | some ft => some ⟨ft.1, c.threads.set i ft.2⟩

/-- Run a schedule (a list of thread indices); `none` when the schedule is
not executable. -/
def runSched (uid k : Int) (c : Config) : List Nat → Option Config
  | [] => some c
  | i :: rest =>
    match schedStep uid k c i with
    | none => none
    | some c2 => runSched uid k c2 rest

/-- Every in-flight call has completed. -/
def allDone (c : Config) : Bool := c.threads.all (fun t => t.pc = 2)

/-- Initial configuration: the persisted store plus `n` concurrent
`add_user_balance` calls that have not yet loaded. -/
def initConfig (data : Store) (n : Nat) : Config :=
  ⟨data, List.replicate n ⟨0, []⟩⟩

/-! ### Concrete fixtures for witnesses and counterexamples -/

/-- Sample record used by the concrete witnesses and counterexamples. -/
def aliceRec : UserRecord :=
  { username := "alice", referrals := 0, total_earned := 0,
    balance_stars := 0, referred_by := none }

/-- Sample one-user store: alice with id 1 and zero balance. -/
def store0 : Store := [(1, aliceRec)]

/-- Empty conversation context. -/
def ctx0 : UserCtx := {}

/-! ### Helper lemmas: decimal printing inverts parsing -/

theorem data_append (a b : String) : (a ++ b).data = a.data ++ b.data := rfl

theorem mk_data (s : String) : (⟨s.data⟩ : String) = s := rfl

theorem digitChar_isDigit {d : Nat} (h : d < 10) : (digitChar d).isDigit = true := by
  interval_cases d <;> decide

theorem digitVal_digitChar {d : Nat} (h : d < 10) : digitVal (digitChar d) = d := by
  interval_cases d <;> decide

theorem isDigit_ne {c x : Char} (h : c.isDigit = true) (hx : x.isDigit = false) : c ≠ x := by
  intro he
  subst he
  rw [h] at hx
  cases hx

theorem natToCharsAux_spec :
    ∀ fuel n, 0 < fuel → n < 10 ^ fuel →
      natToCharsAux fuel n ≠ [] ∧
      (natToCharsAux fuel n).all (fun c => c.isDigit) = true ∧
      (natToCharsAux fuel n).foldl (fun a c => 10 * a + digitVal c) 0 = n := by
  intro fuel
  induction fuel with
  | zero => intro n h0 _; exact absurd h0 (by omega)
  | succ f ih =>
    intro n _ hn
    by_cases h10 : n < 10
    · refine ⟨by simp [natToCharsAux, h10], ?_, ?_⟩
      · simp [natToCharsAux, h10, digitChar_isDigit h10]
      · simp [natToCharsAux, h10, digitVal_digitChar h10]
    · have hf : 0 < f := by
        rcases Nat.eq_zero_or_pos f with h0 | h
        · subst h0; simp [pow_one] at hn; omega
        · exact h
      have hdiv : n / 10 < 10 ^ f := by
        rw [Nat.div_lt_iff_lt_mul (by norm_num)]
        rw [pow_succ] at hn
        exact hn
      obtain ⟨hne, hall, hval⟩ := ih (n / 10) hf hdiv
      have hmod : n % 10 < 10 := Nat.mod_lt _ (by omega)
      refine ⟨?_, ?_, ?_⟩
      · simp [natToCharsAux, h10]
      · simp [natToCharsAux, h10, List.all_append, hall, digitChar_isDigit hmod]
      · simp [natToCharsAux, h10, List.foldl_append, hval, digitVal_digitChar hmod]
        omega

theorem natToStr_bound (n : Nat) : n < 10 ^ (n + 1) :=
  lt_of_lt_of_le (Nat.lt_pow_self (by norm_num) n)
    (Nat.pow_le_pow_right (by norm_num) (Nat.le_succ n))

theorem parseDigits_natToStr (n : Nat) : parseDigits (natToStr n).data = some n := by
  obtain ⟨hne, hall, hval⟩ :=
    natToCharsAux_spec (n + 1) n (Nat.succ_pos n) (natToStr_bound n)
  simp [natToStr, parseDigits, hne, hall, hval]

theorem pyIntChars_natToStr (n : Nat) : pyIntChars (natToStr n).data = some (n : Int) := by
  obtain ⟨hne, hall, _⟩ :=
    natToCharsAux_spec (n + 1) n (Nat.succ_pos n) (natToStr_bound n)
  cases hl : (natToStr n).data with
  | nil => exact absurd (by simpa [natToStr] using hl) hne
  | cons c cs =>
    have hc : c.isDigit = true := by
      have hl' : natToCharsAux (n + 1) n = c :: cs := by simpa [natToStr] using hl
      rw [hl'] at hall
      simp only [List.all_cons, Bool.and_eq_true] at hall
      exact hall.1
    show pyIntChars (c :: cs) = some (n : Int)
    simp only [pyIntChars]
    rw [if_neg (isDigit_ne hc (show Char.isDigit ('-') = false from by decide)),
        if_neg (isDigit_ne hc (show Char.isDigit ('+') = false from by decide))]
    rw [← hl, parseDigits_natToStr]
    rfl

theorem pyInt_intToStr (i : Int) : pyInt (intToStr i) = some i := by
  unfold pyInt intToStr
  by_cases h : i < 0
  · rw [if_pos h]
    show pyIntChars ('-' :: (natToStr i.natAbs).data) = some i
    simp only [pyIntChars]
    rw [if_pos trivial, parseDigits_natToStr]
    show some (-(Int.ofNat i.natAbs)) = some i
    congr 1
    simp only [Int.ofNat_eq_coe]
    omega
  · rw [if_neg h, pyIntChars_natToStr]
    congr 1
    omega

theorem natToStr_all_digits (n : Nat) :
    (natToStr n).data.all (fun c => c.isDigit) = true := by
  obtain ⟨_, hall, _⟩ :=
    natToCharsAux_spec (n + 1) n (Nat.succ_pos n) (natToStr_bound n)
  simpa [natToStr] using hall

theorem natToStr_no_underscore (n : Nat) : '_' ∉ (natToStr n).data := by
  intro hmem
  have := (List.all_eq_true.mp (natToStr_all_digits n)) _ hmem
  exact absurd this (by decide)

theorem intToStr_no_underscore (i : Int) : '_' ∉ (intToStr i).data := by
  unfold intToStr
  by_cases h : i < 0
  · rw [if_pos h]
    show '_' ∉ '-' :: (natToStr i.natAbs).data
    intro hmem
    rcases List.mem_cons.mp hmem with he | hm
    · exact absurd he (by decide)
    · exact natToStr_no_underscore _ hm
  · rw [if_neg h]
    exact natToStr_no_underscore _

/-! ### Helper lemmas: splitting on the underscore -/

theorem splitOnChar_ne_nil (sep : Char) (l : List Char) : splitOnChar sep l ≠ [] := by
  cases l with
  | nil => simp [splitOnChar]
  | cons c cs =>
    unfold splitOnChar
    cases h : splitOnChar sep cs with
    | nil => simp
    | cons a t =>
      by_cases hc : c = sep <;> simp [hc]

theorem splitOnChar_no_sep {sep : Char} : ∀ {l : List Char}, sep ∉ l →
    splitOnChar sep l = [l] := by
  intro l
  induction l with
  | nil => intro _; rfl
  | cons c cs ih =>
    intro h
    have hc : c ≠ sep := fun he => h (he ▸ List.mem_cons_self c cs)
    have hcs : sep ∉ cs := fun hm => h (List.mem_cons_of_mem _ hm)
    rw [splitOnChar, ih hcs]
    simp [hc]

theorem splitOnChar_append {sep : Char} : ∀ {a : List Char} (b : List Char), sep ∉ a →
    splitOnChar sep (a ++ sep :: b) = a :: splitOnChar sep b := by
  intro a
  induction a with
  | nil =>
    intro b _
    obtain ⟨x, t, h⟩ := List.exists_cons_of_ne_nil (splitOnChar_ne_nil sep b)
    rw [List.nil_append, splitOnChar, h]
    simp
  | cons c cs ih =>
    intro b h
    have hc : c ≠ sep := fun he => h (he ▸ List.mem_cons_self c cs)
    have hcs : sep ∉ cs := fun hm => h (List.mem_cons_of_mem _ hm)
    rw [List.cons_append, splitOnChar, ih b hcs]
    simp [hc]

/-! ### Helper lemmas: the gift token splits back into its fields -/

theorem pySplit_giftCallbackData (uid amount : Int) (handle : String)
    (h : '_' ∉ handle.data) :
    pySplit (giftCallbackData uid amount handle)
      = ["admin", "confirm", "gift", intToStr uid, intToStr amount, handle] := by
  have hd :
      (giftCallbackData uid amount handle).data
        = ['a', 'd', 'm', 'i', 'n'] ++ '_' ::
          (['c', 'o', 'n', 'f', 'i', 'r', 'm'] ++ '_' ::
           (['g', 'i', 'f', 't'] ++ '_' ::
            ((intToStr uid).data ++ '_' ::
             ((intToStr amount).data ++ '_' :: handle.data)))) := by
    simp [giftCallbackData, data_append]
  unfold pySplit
  rw [hd,
    splitOnChar_append _ (by decide),
    splitOnChar_append _ (by decide),
    splitOnChar_append _ (by decide),
    splitOnChar_append _ (intToStr_no_underscore uid),
    splitOnChar_append _ (intToStr_no_underscore amount),
    splitOnChar_no_sep h]
  rfl

/-! ### Helper lemmas: the store operations -/

theorem lookup_bump_balance : ∀ {data : Store} {uid : Int} {u : UserRecord},
    lookup data uid = some u → ∀ a, lookup (bump_balance data uid a) uid
      = some { u with balance_stars := u.balance_stars + a } := by
  intro data
  induction data with
  | nil => intro uid u h a; simp [lookup] at h
  | cons p rest ih =>
    intro uid u h a
    obtain ⟨k, v⟩ := p
    by_cases hk : k = uid
    · subst hk
      rw [lookup, if_pos rfl] at h
      obtain rfl := Option.some.inj h
      rw [bump_balance, if_pos rfl, lookup, if_pos rfl]
    · rw [lookup, if_neg hk] at h
      rw [bump_balance, if_neg hk, lookup, if_neg hk]
      exact ih h a

theorem bump_balance_isSome {data : Store} {uid : Int} {u : UserRecord}
    (h : lookup data uid = some u) (a : Int) :
    (lookup (bump_balance data uid a) uid).isSome = true := by
  rw [lookup_bump_balance h a]
  rfl

theorem add_user_balance_present {data : Store} {uid : Int} {u : UserRecord}
    (h : lookup data uid = some u) (a : Int) :
    add_user_balance data uid a = bump_balance data uid a := by
  rw [add_user_balance, if_pos (by rw [h]; rfl)]

theorem add_user_balance_absent {data : Store} {uid : Int}
    (h : lookup data uid = none) (a : Int) :
    add_user_balance data uid a = data := by
  rw [add_user_balance, if_neg (by rw [h]; exact Bool.false_ne_true)]

theorem lookup_append_single {newId r : Int} (u : UserRecord) (h : r ≠ newId) :
    ∀ data : Store, lookup (data ++ [(newId, u)]) r = lookup data r := by
  intro data
  induction data with
  | nil =>
    show lookup [(newId, u)] r = none
    rw [lookup, if_neg (Ne.symm h)]
    rfl
  | cons p rest ih =>
    obtain ⟨k, v⟩ := p
    by_cases hk : k = r
    · rw [List.cons_append, lookup, if_pos hk, lookup, if_pos hk]
    · rw [List.cons_append, lookup, if_neg hk, lookup, if_neg hk]
      exact ih

/-! ### Helper lemmas: the branches of the admin action handler -/

theorem admin_action_handler_self {cb : String} {uid amount : Int}
    (hcb : decodeAdminCallback cb = some (Decoded.confirmSelf uid amount))
    (support : String) (data : Store) (m : String) :
    admin_action_handler support data cb m
      = (add_user_balance data uid amount,
         [OutMsg.send uid ("✅ Ваш баланс успешно пополнен на " ++ intToStr amount ++ " ⭐️!"),
          OutMsg.editMsg (m ++ "\n\n**[ ✅ ПЛАТЁЖ ПОДТВЕРЖДЁН ]**")]) := by
  unfold admin_action_handler
  rw [hcb]

theorem admin_action_handler_gift_notfound {cb : String} {payer amount : Int}
    {handle : String}
    (hcb : decodeAdminCallback cb = some (Decoded.confirmGift payer amount handle))
    (support : String) (data : Store) (m : String)
    (hfind : find_user_by_username data handle = none) :
    admin_action_handler support data cb m
      = (data,
         [OutMsg.send payer ("❗️Ваш платёж подтверждён, но пользователь @" ++ handle ++
            " не найден. Звёзды не были зачислены. Свяжитесь с поддержкой @" ++ support ++ "."),
          OutMsg.editMsg (m ++ "\n\n**[ ❌ ОШИБКА: ПОЛУЧАТЕЛЬ НЕ НАЙДЕН ]**\n(Пользователь: @" ++ handle ++ ")")]) := by
  unfold admin_action_handler
  simp only [hcb]
  rw [hfind]

/-! ### The claims -/

/-- C4: `get_or_create_user` is idempotent — for an id already present in
the store, calling it again with any `display_name`/`referred_by` arguments
returns the store completely unchanged together with the existing record, so
`referral_count`, `total_earned`, `balance` and the original `referred_by`
are untouched and the record is neither duplicated nor reset. -/
theorem get_or_create_user_idempotent (data : Store) (uid : Int) (uname : String)
    (ref : Option Int) (u : UserRecord) (h : lookup data uid = some u) :
    get_or_create_user data uid uname ref = (data, u) := by
  unfold get_or_create_user
  rw [h]

/-- Witness for C4: re-creating alice with a different name and referrer
changes nothing. -/
theorem get_or_create_user_idempotent_witness :
    get_or_create_user store0 1 ("zed") (some 99) = (store0, aliceRec) :=
  get_or_create_user_idempotent store0 1 ("zed") (some 99) aliceRec (by decide)

/-- C9: in the awaiting-amount state, any text that does not parse as an
integer, or parses outside the inclusive range [50, 1000000], leaves the
store and the conversation context unchanged and produces exactly one
re-prompt reply; the user store is not accessed (the handler returns it
verbatim in every such branch). -/
theorem invalid_amount_reprompts_no_state_change
    (rate : ℚ) (data : Store) (ctx : UserCtx) (uid : Int) (text : String)
    (h : pyInt text = none ∨ ∃ a, pyInt text = some a ∧ (a < 50 ∨ 1000000 < a)) :
    (handle_amount_input rate data ctx uid text).1 = data ∧
    (handle_amount_input rate data ctx uid text).2.1 = ctx ∧
    ((handle_amount_input rate data ctx uid text).2.2
        = [OutMsg.reply ("Пожалуйста, введите корректное число.")] ∨
      (handle_amount_input rate data ctx uid text).2.2
        = [OutMsg.reply ("Сумма должна быть в диапазоне от 50 до 1,000,000.")]) := by
  rcases h with h | ⟨a, ha, hr⟩
  · simp [handle_amount_input, h]
  · simp [handle_amount_input, ha, if_pos hr]

/-- Witness for C9: the input "abc" is rejected without touching state. -/
theorem invalid_amount_reprompts_no_state_change_witness :
    (handle_amount_input 1 store0 ctx0 1 ("abc")).2.1 = ctx0 :=
  (invalid_amount_reprompts_no_state_change 1 store0 ctx0 1 ("abc")
    (Or.inl (by decide))).2.1

/-- C8: for every amount accepted by the validator, the quoted price is
`max(minimum_fee, round(amount * rate, 2))` with the hard-coded
`minimum_fee = 2`; in particular at `rate = 0.05` and `amount = 50` the
price is `2.5` (which exceeds the minimum fee). -/
theorem price_formula_matches_spec (rate : ℚ) (a : Int)
    (h1 : 50 ≤ a) (h2 : a ≤ 1000000) :
    price_rub rate a = max minimum_fee (pyRound2 ((a : ℚ) * rate)) ∧
    price_rub (1/20) 50 = 5/2 := by
  constructor
  · rfl
  · show max 2 (pyRound2 (((50 : Int) : ℚ) * (1/20))) = 5/2
    have hq : (((50 : Int) : ℚ) * (1/20)) * 100 = ((250 : Int) : ℚ) := by norm_num
    unfold pyRound2
    rw [hq]
    have hr : pyRoundInt ((250 : Int) : ℚ) = 250 := by
      unfold pyRoundInt
      rw [Int.floor_intCast]
      norm_num
    rw [hr]
    norm_num

/-- Witness for C8 at the concrete rate 0.05 and amount 50. -/
theorem price_formula_matches_spec_witness :
    price_rub (1/20) 50 = 5/2 :=
  (price_formula_matches_spec (1/20) 50 (by norm_num) (by norm_num)).2

/-- C10: crediting a user id that is not in the store is a silent no-op
(`add_user_balance` returns the store unchanged), yet a confirmed self-topup
settlement for such a payer still sends the payer exactly one success
notification and marks the admin message confirmed — success is reported
although no ledger mutation happened. -/
theorem confirm_unknown_payer_reports_success_without_credit
    (support m cb : String) (data : Store) (uid amount : Int)
    (hcb : decodeAdminCallback cb = some (Decoded.confirmSelf uid amount))
    (habs : lookup data uid = none) :
    add_user_balance data uid amount = data ∧
    admin_action_handler support data cb m
      = (data,
         [OutMsg.send uid ("✅ Ваш баланс успешно пополнен на " ++ intToStr amount ++ " ⭐️!"),
          OutMsg.editMsg (m ++ "\n\n**[ ✅ ПЛАТЁЖ ПОДТВЕРЖДЁН ]**")]) := by
  have h1 := add_user_balance_absent habs amount
  refine ⟨h1, ?_⟩
  rw [admin_action_handler_self hcb support data m, h1]

/-- Witness for C10: a self-topup token for the unknown id 42 on the sample
store reports success while the store stays as it was. -/
theorem confirm_unknown_payer_reports_success_without_credit_witness :
    admin_action_handler ("sup") store0 (selfCallbackData 42 100) ("m")
      = (store0,
         [OutMsg.send 42 ("✅ Ваш баланс успешно пополнен на " ++ intToStr 100 ++ " ⭐️!"),
          OutMsg.editMsg (("m") ++ "\n\n**[ ✅ ПЛАТЁЖ ПОДТВЕРЖДЁН ]**")]) :=
  (confirm_unknown_payer_reports_success_without_credit ("sup") ("m")
    (selfCallbackData 42 100) store0 42 100 (by decide) (by decide)).2

/-- C1 counterexample: the admin action handler keeps no record of
already-settled tokens.  Acting twice on the very same self-topup token
credits the payer twice: after the first action alice's balance is 100,
after the second it is 200, and the second action did mutate the ledger
again (the stores differ). -/
theorem second_admin_action_mutates_again :
    lookup (admin_action_handler ("sup") store0 (selfCallbackData 1 100) ("m")).1 1
        = some { aliceRec with balance_stars := 100 } ∧
    lookup (admin_action_handler ("sup")
        ((admin_action_handler ("sup") store0 (selfCallbackData 1 100) ("m")).1)
        (selfCallbackData 1 100) ("m")).1 1
        = some { aliceRec with balance_stars := 200 } ∧
    (admin_action_handler ("sup")
        ((admin_action_handler ("sup") store0 (selfCallbackData 1 100) ("m")).1)
        (selfCallbackData 1 100) ("m")).1
      ≠ (admin_action_handler ("sup") store0 (selfCallbackData 1 100) ("m")).1 := by
  decide

/-- C1 (amended): a settlement token is not single-use.  Whenever a confirm
token for a self-topup decodes to `(uid, amount)` and `uid` is in the store,
every further admin action on the same token repeats the ledger mutation: one
action credits `amount`, a second action credits `amount` again. -/
theorem admin_confirm_replay_double_credits
    (support m1 m2 cb : String) (data : Store) (uid amount : Int) (u : UserRecord)
    (hcb : decodeAdminCallback cb = some (Decoded.confirmSelf uid amount))
    (hu : lookup data uid = some u) :
    lookup (admin_action_handler support data cb m1).1 uid
        = some { u with balance_stars := u.balance_stars + amount } ∧
    lookup (admin_action_handler support
        ((admin_action_handler support data cb m1).1) cb m2).1 uid
        = some { u with balance_stars := u.balance_stars + amount + amount } := by
  have l1 : lookup (admin_action_handler support data cb m1).1 uid
      = some { u with balance_stars := u.balance_stars + amount } := by
    rw [admin_action_handler_self hcb support data m1]
    show lookup (add_user_balance data uid amount) uid = _
    rw [add_user_balance_present hu amount]
    exact lookup_bump_balance hu amount
  refine ⟨l1, ?_⟩
  rw [admin_action_handler_self hcb support
    ((admin_action_handler support data cb m1).1) m2]
  show lookup (add_user_balance ((admin_action_handler support data cb m1).1) uid amount) uid = _
  rw [add_user_balance_present l1 amount]
  exact lookup_bump_balance l1 amount

/-- Witness for the amended C1 on the sample store. -/
theorem admin_confirm_replay_double_credits_witness :
    lookup (admin_action_handler ("s")
        ((admin_action_handler ("s") store0 (selfCallbackData 1 7) ("n")).1)
        (selfCallbackData 1 7) ("n")).1 1
      = some { aliceRec with balance_stars := aliceRec.balance_stars + 7 + 7 } :=
  (admin_confirm_replay_double_credits ("s") ("n") ("n") (selfCallbackData 1 7)
    store0 1 7 aliceRec (by decide) (by decide)).2

/-- C3 counterexample: a start event for the new user 2 carrying referral
code "r1" (alice's id) creates the account with `referred_by = 1`, but
alice's record — in particular her `referrals` counter — is left exactly as
it was (0, not 1): no code path ever increments the referral counter. -/
theorem start_referral_does_not_increment_referrer :
    (start_handler store0 2 ("bob") [("r1")]).1
        = [(1, aliceRec),
           (2, { username := "bob", referrals := 0, total_earned := 0,
                 balance_stars := 0, referred_by := some 1 })] ∧
    lookup (start_handler store0 2 ("bob") [("r1")]).1 1 = some aliceRec ∧
    aliceRec.referrals = 0 := by
  decide

/-- C3 (amended): a start event whose referral code names referrer `rid`
creates the new account with `referred_by = rid`, raises no error, and leaves
every existing record (the referrer's included, whether or not `rid` exists)
completely unchanged; no referral counter is incremented. -/
theorem start_referral_records_referrer_without_increment
    (data : Store) (newId rid : Int) (uname : String)
    (hnew : lookup data newId = none) :
    (start_handler data newId uname [("r") ++ intToStr rid]).1
        = data ++ [(newId, { username := uname, referrals := 0, total_earned := 0,
                             balance_stars := 0, referred_by := some rid })] ∧
    (∀ r : Int, r ≠ newId →
      lookup (start_handler data newId uname [("r") ++ intToStr rid]).1 r
        = lookup data r) := by
  have hparse : parse_ref_arg (("r") ++ intToStr rid) = some rid := by
    show pyIntChars (intToStr rid).data = some rid
    exact pyInt_intToStr rid
  have hs : start_handler data newId uname [("r") ++ intToStr rid]
      = get_or_create_user data newId uname (some rid) := by
    show get_or_create_user data newId uname (parse_ref_arg (("r") ++ intToStr rid)) = _
    rw [hparse]
  rw [hs]
  unfold get_or_create_user
  rw [hnew]
  refine ⟨rfl, ?_⟩
  intro r hr
  exact lookup_append_single _ hr data

/-- Witness for the amended C3: user 2 starts with alice's referral code. -/
theorem start_referral_records_referrer_without_increment_witness :
    (start_handler store0 2 ("bob") [("r") ++ intToStr 1]).1
      = store0 ++ [(2, { username := "bob", referrals := 0, total_earned := 0,
                         balance_stars := 0, referred_by := some 1 })] :=
  (start_referral_records_referrer_without_increment store0 2 1 ("bob") (by decide)).1

/-- C5 counterexample: the gift token flattens its fields with "_" as the
separator and the handler re-splits on "_", so a recipient handle that
itself contains an underscore (legal in Telegram usernames) is truncated:
the token for handle "john_doe" decodes to handle "john". -/
theorem gift_token_underscore_mangled :
    decodeAdminCallback (giftCallbackData 123 100 ("john_doe"))
        = some (Decoded.confirmGift 123 100 ("john")) ∧
    ("john" : String) ≠ ("john_doe" : String) := by
  decide

/-- C5 (amended): the gift token is a faithful round trip exactly for
recipient handles that contain no underscore: for every payer id, amount and
underscore-free handle, decoding the encoded token yields the same operation
kind, payer id, amount and handle. -/
theorem gift_token_roundtrip_no_underscore (uid amount : Int) (handle : String)
    (h : '_' ∉ handle.data) :
    decodeAdminCallback (giftCallbackData uid amount handle)
      = some (Decoded.confirmGift uid amount handle) := by
  unfold decodeAdminCallback
  rw [pySplit_giftCallbackData uid amount handle h]
  simp [pyInt_intToStr]

/-- Witness for the amended C5 on an underscore-free handle. -/
theorem gift_token_roundtrip_no_underscore_witness :
    decodeAdminCallback (giftCallbackData 123 100 ("johndoe"))
      = some (Decoded.confirmGift 123 100 ("johndoe")) :=
  gift_token_roundtrip_no_underscore 123 100 ("johndoe") (by decide)

/-- C6: a gift settlement whose decoded recipient handle resolves to no
record returns the store verbatim (every balance unchanged) and emits
exactly one notification to the payer — the failure message pointing at the
support contact — plus the terminal edit of the admin message. -/
theorem gift_settlement_unresolved_recipient_no_credit
    (support m cb : String) (data : Store) (payer amount : Int) (handle : String)
    (hcb : decodeAdminCallback cb = some (Decoded.confirmGift payer amount handle))
    (hfind : find_user_by_username data handle = none) :
    admin_action_handler support data cb m
      = (data,
         [OutMsg.send payer ("❗️Ваш платёж подтверждён, но пользователь @" ++ handle ++
            " не найден. Звёзды не были зачислены. Свяжитесь с поддержкой @" ++ support ++ "."),
          OutMsg.editMsg (m ++ "\n\n**[ ❌ ОШИБКА: ПОЛУЧАТЕЛЬ НЕ НАЙДЕН ]**\n(Пользователь: @" ++ handle ++ ")")]) :=
  admin_action_handler_gift_notfound hcb support data m hfind

/-- Witness for C6: a gift to the unknown handle "ghost" on the sample
store. -/
theorem gift_settlement_unresolved_recipient_no_credit_witness :
    admin_action_handler ("sup") store0 (giftCallbackData 5 100 ("ghost")) ("m")
      = (store0,
         [OutMsg.send 5 ("❗️Ваш платёж подтверждён, но пользователь @" ++ ("ghost") ++
            " не найден. Звёзды не были зачислены. Свяжитесь с поддержкой @" ++ ("sup") ++ "."),
          OutMsg.editMsg (("m") ++ "\n\n**[ ❌ ОШИБКА: ПОЛУЧАТЕЛЬ НЕ НАЙДЕН ]**\n(Пользователь: @" ++ ("ghost") ++ ")")]) :=
  gift_settlement_unresolved_recipient_no_credit ("sup") ("m")
    (giftCallbackData 5 100 ("ghost")) store0 5 100 ("ghost") (by decide) (by decide)

/-- C7 counterexample: in the awaiting-friend-handle state, the
syntactically valid handle "@ghost" resolves to nothing in the (empty)
store, yet the handler stores "ghost" as the recipient and advances the
conversation to awaiting-amount — it never consults the store at all. -/
theorem friend_handle_unresolved_still_advances :
    find_user_by_username [] ("ghost") = none ∧
    (handle_friend_username [] { awaiting_friend_username := true } ("@ghost")).2.1
        = { friend_username := some ("ghost"),
            awaiting_friend_username := false, awaiting_amount := true } ∧
    (handle_friend_username [] { awaiting_friend_username := true } ("@ghost")).2.1.awaiting_amount
        = true := by
  decide

/-- C7 (amended): every syntactically valid handle (leading `@`) is stored
as the recipient — without any resolution against the store — and the state
always advances to awaiting-amount; resolution happens only later, at
settlement time. -/
theorem friend_handle_stored_without_resolution
    (data : Store) (ctx : UserCtx) (text : String) (rest : List Char)
    (h : text.data = '@' :: rest) :
    handle_friend_username data ctx text
      = (data,
         { ctx with friend_username := some ⟨rest⟩,
                    awaiting_friend_username := false, awaiting_amount := true },
         [OutMsg.reply ("✅ Получатель: " ++ text ++
            "\n\nТеперь введите сумму покупки (мин. 50).\n\n❗️**Важно:** Убедитесь, что вы правильно указали username. Если допустить ошибку, звёзды не будут зачислены.")]) := by
  unfold handle_friend_username
  rw [h]
  exact if_pos rfl

/-- Witness for the amended C7: the handle "@bob" advances the state. -/
theorem friend_handle_stored_without_resolution_witness :
    (handle_friend_username [] ctx0 ("@bob")).2.1.awaiting_amount = true := by
  rw [friend_handle_stored_without_resolution [] ctx0 ("@bob") (['b', 'o', 'b']) (by decide)]

/-- C2 counterexample: an executable interleaving of two concurrent
`add_user_balance(1, +5)` calls — both load before either saves, which the
per-call file lock permits — completes with alice's balance at 5, not the
10 the no-lost-update property demands. -/
theorem interleaved_topups_lose_update :
    runSched 1 5 (initConfig store0 2) [0, 1, 0, 1]
        = some ⟨[(1, { aliceRec with balance_stars := 5 })], [⟨2, store0⟩, ⟨2, store0⟩]⟩ ∧
    allDone ⟨[(1, { aliceRec with balance_stars := 5 })], [⟨2, store0⟩, ⟨2, store0⟩]⟩ = true ∧
    (5 : Int) ≠ 2 * 5 := by
  decide

/-- C2 (amended): the exclusivity lock covers only the physical read and the
physical write, not the span between them.  For two concurrent `+k` calls on
a present record, the fully serialized schedule does add `2k`, but the
interleaved schedule (both reads before both writes) is equally executable
and adds only `k` — one update is lost. -/
theorem topup_serial_adds_twice_interleaved_loses_one
    (data : Store) (uid k : Int) (u : UserRecord) (hu : lookup data uid = some u) :
    (∃ c : Config, runSched uid k (initConfig data 2) [0, 0, 1, 1] = some c ∧
        allDone c = true ∧
        lookup c.file uid = some { u with balance_stars := u.balance_stars + k + k }) ∧
    (∃ c : Config, runSched uid k (initConfig data 2) [0, 1, 0, 1] = some c ∧
        allDone c = true ∧
        lookup c.file uid = some { u with balance_stars := u.balance_stars + k }) := by
  have hsome : (lookup data uid).isSome = true := by rw [hu]; rfl
  have hb1 := lookup_bump_balance hu k
  have hsome1 : (lookup (bump_balance data uid k) uid).isSome = true := by
    rw [hb1]; rfl
  constructor
  · refine ⟨⟨bump_balance (bump_balance data uid k) uid k,
      [⟨2, data⟩, ⟨2, bump_balance data uid k⟩]⟩, ?_, ?_, ?_⟩
    · have e2 : schedStep uid k ⟨data, [⟨1, data⟩, ⟨0, []⟩]⟩ 0
          = some ⟨bump_balance data uid k, [⟨2, data⟩, ⟨0, []⟩]⟩ := by
        simp [schedStep, threadStep, hsome]
      have e4 : schedStep uid k ⟨bump_balance data uid k, [⟨2, data⟩, ⟨1, bump_balance data uid k⟩]⟩ 1
          = some ⟨bump_balance (bump_balance data uid k) uid k,
                  [⟨2, data⟩, ⟨2, bump_balance data uid k⟩]⟩ := by
        simp [schedStep, threadStep, hsome1]
      calc runSched uid k (initConfig data 2) [0, 0, 1, 1]
          = runSched uid k ⟨data, [⟨1, data⟩, ⟨0, []⟩]⟩ [0, 1, 1] := rfl
        _ = runSched uid k ⟨bump_balance data uid k, [⟨2, data⟩, ⟨0, []⟩]⟩ [1, 1] := by
            rw [runSched, e2]
        _ = runSched uid k ⟨bump_balance data uid k,
              [⟨2, data⟩, ⟨1, bump_balance data uid k⟩]⟩ [1] := rfl
        _ = some ⟨bump_balance (bump_balance data uid k) uid k,
              [⟨2, data⟩, ⟨2, bump_balance data uid k⟩]⟩ := by
            rw [runSched, e4]
            rfl
    · rfl
    · exact lookup_bump_balance hb1 k
  · refine ⟨⟨bump_balance data uid k, [⟨2, data⟩, ⟨2, data⟩]⟩, ?_, ?_, ?_⟩
    · have f3 : schedStep uid k ⟨data, [⟨1, data⟩, ⟨1, data⟩]⟩ 0
          = some ⟨bump_balance data uid k, [⟨2, data⟩, ⟨1, data⟩]⟩ := by
        simp [schedStep, threadStep, hsome]
      have f4 : schedStep uid k ⟨bump_balance data uid k, [⟨2, data⟩, ⟨1, data⟩]⟩ 1
          = some ⟨bump_balance data uid k, [⟨2, data⟩, ⟨2, data⟩]⟩ := by
        simp [schedStep, threadStep, hsome]
      calc runSched uid k (initConfig data 2) [0, 1, 0, 1]
          = runSched uid k ⟨data, [⟨1, data⟩, ⟨1, data⟩]⟩ [0, 1] := rfl
        _ = runSched uid k ⟨bump_balance data uid k, [⟨2, data⟩, ⟨1, data⟩]⟩ [1] := by
            rw [runSched, f3]
        _ = some ⟨bump_balance data uid k, [⟨2, data⟩, ⟨2, data⟩]⟩ := by
            rw [runSched, f4]
            rfl
    · rfl
    · exact hb1

/-- Witness for the amended C2 on the sample store with k = 7. -/
theorem topup_serial_adds_twice_interleaved_loses_one_witness :
    ∃ c : Config, runSched 1 7 (initConfig store0 2) [0, 1, 0, 1] = some c ∧
      allDone c = true ∧
      lookup c.file 1 = some { aliceRec with balance_stars := aliceRec.balance_stars + 7 } :=
  (topup_serial_adds_twice_interleaved_loses_one store0 1 7 aliceRec (by decide)).2
